import Mathlib

/-!
Shallow embedding of `gitlab-registry-pruner` (src/main.go): the image
catalog, the age and pattern filter stages, the per-cluster usage
correlator `setImagesClusterUsage`, the deletion stage of `main`, and the
HTTP status validation of `sendHTTPRequest`. External effects (registry
HTTP calls, manifest parsing, the regexp engine) are modelled as explicit
oracles or as emitted call/report lists; everything else follows the Go
source line by line.
-/

namespace Pruner

/-- The `Image` struct of main.go: a docker image entry in the catalog.
Field defaults are the Go zero values (`getImages` sets only `Name` and
`Tag`). Time is modelled as `Int` nanoseconds since the epoch, so Go's
`time.Time.Before` is `<`. -/
structure Image where
  name : String := ""
  tag : String := ""
  digest : String := ""
  created : Int := 0
  usedInCluster : Bool := false
deriving DecidableEq, Repr

/-- A container inside a pod spec (only the image string matters). -/
structure Container where
  image : String
deriving DecidableEq, Repr

/-- A pod: its name and its spec's containers. -/
structure Pod where
  name : String
  containers : List Container
deriving DecidableEq, Repr

/-- A Kubernetes namespace: its name and its pods. -/
structure KNamespace where
  name : String
  pods : List Pod
deriving DecidableEq, Repr

/-- The line printed by the age filter for a dropped entry:
`Image %s:%s is too young, skipped: %s`. -/
structure AgeReport where
  name : String
  tag : String
  created : Int
deriving DecidableEq, Repr

/-- Go: `minExpiryDate := time.Now().AddDate(0, 0, Cfg.MinExpiry*-1)`
(main.go line 84), with a day as 86400e9 nanoseconds. -/
def minExpiryDate (now : Int) (minExpiry : Int) : Int :=
  now - minExpiry * 86400000000000

/-- The age filter stage of `main` (main.go lines 87-99): keep an entry
iff `image.Created.Before(minExpiryDate)`, i.e. strictly before the
cutoff; every dropped entry is reported. Returns (surviving slice,
reports in print order). -/
def ageFilter (cutoff : Int) (images : List Image) : List Image × List AgeReport :=
  match images with
  | [] => ([], [])
  | img :: rest =>
    let (keep, reps) := ageFilter cutoff rest
    if img.created < cutoff then
      (img :: keep, reps)
    else
      (keep, AgeReport.mk img.name img.tag img.created :: reps)

/-- The report emitted for an entry dropped by the age filter. -/
def mkAgeReport (img : Image) : AgeReport :=
  AgeReport.mk img.name img.tag img.created

/-- The line printed by the pattern filter for a dropped entry:
`Image %s:%s matches regexp, skipped: %s`. -/
structure PatternReport where
  name : String
  tag : String
  pattern : String
deriving DecidableEq, Repr

/-- Go's `regexp.MatchString(pattern, s)` modelled with two oracles:
`compileOk` says whether the pattern compiles, `rmatch` is the compiled
engine's match predicate. Per the Go stdlib, a compile failure returns
`(false, err)`; otherwise `(matched, nil)`. Result is
(matched, error occurred). -/
def matchString (compileOk : String → Bool) (rmatch : String → String → Bool)
    (pattern s : String) : Bool × Bool :=
  if compileOk pattern then (rmatch pattern s, false) else (false, true)

/-- The in-place filter loop of the pattern stage (main.go lines 103-115):
keep an entry iff `!matched`, where `matched, _ := regexp.MatchString(...)`
discards the error; every dropped entry is reported. -/
def patternFilterLoop (compileOk : String → Bool) (rmatch : String → String → Bool)
    (pattern : String) (images : List Image) : List Image × List PatternReport :=
  match images with
  | [] => ([], [])
  | img :: rest =>
    let (keep, reps) := patternFilterLoop compileOk rmatch pattern rest
    if (matchString compileOk rmatch pattern img.tag).1 then
      (keep, PatternReport.mk img.name img.tag pattern :: reps)
    else
      (img :: keep, reps)

/-- The pattern filter stage of `main` (main.go lines 102-116): runs only
when a pattern was supplied (`Cfg.RegexPattern != ""`). -/
def patternFilter (compileOk : String → Bool) (rmatch : String → String → Bool)
    (pattern : String) (images : List Image) : List Image × List PatternReport :=
  if pattern = "" then (images, [])
  else patternFilterLoop compileOk rmatch pattern images

/-- The fully-qualified image reference built at main.go line 189:
`fmt.Sprintf("%s/%s:%s", Cfg.RegistryURLShort, image.Name, image.Tag)`. -/
def fullRef (registryURLShort : String) (img : Image) : String :=
  registryURLShort ++ "/" ++ img.name ++ ":" ++ img.tag

/-- The line printed on a usage match (main.go line 202):
`Image %s:%s is used in Namespace %s and pod %s`. -/
structure UsageReport where
  name : String
  tag : String
  nsName : String
  podName : String
deriving DecidableEq, Repr

/-- The per-container check of main.go line 196: `imageName == cont.Image`. -/
def containerMatches (ref : String) (c : Container) : Bool :=
  ref == c.image

/-- Some container of the pod matches the reference. -/
def podMatches (ref : String) (p : Pod) : Bool :=
  p.containers.any (containerMatches ref)

/-- Some pod of the namespace matches the reference. -/
def nsMatches (ref : String) (ns : KNamespace) : Bool :=
  ns.pods.any (podMatches ref)

/-- The innermost container loop (main.go lines 194-205): on a match, set
`UsedInCluster` (the per-entry lock is irrelevant to the value) and emit
the report; there is no break in this loop. -/
def scanContainers (imageName : String) (img : Image) (nsName podName : String)
    (conts : List Container) : Image × List UsageReport :=
  match conts with
  | [] => (img, [])
  | c :: rest =>
    if imageName = c.image then
      let next := scanContainers imageName { img with usedInCluster := true } nsName podName rest
      (next.1, UsageReport.mk img.name img.tag nsName podName :: next.2)
    else
      scanContainers imageName img nsName podName rest

/-- The pod loop (main.go lines 192-211): after each pod's containers, the
`if image.UsedInCluster { break }` check leaves the pod loop for this
entry. -/
def scanPods (imageName : String) (img : Image) (nsName : String)
    (pods : List Pod) : Image × List UsageReport :=
  match pods with
  | [] => (img, [])
  | p :: rest =>
    let r1 := scanContainers imageName img nsName p.name p.containers
    if r1.1.usedInCluster then
      r1
    else
      let r2 := scanPods imageName r1.1 nsName rest
      (r2.1, r1.2 ++ r2.2)

/-- The entry loop inside one namespace (main.go lines 187-212): each
entry is scanned against the namespace's pods with its own fully-qualified
reference. -/
def scanEntries (host nsName : String) (pods : List Pod) (images : List Image) :
    List Image × List UsageReport :=
  match images with
  | [] => ([], [])
  | img :: rest =>
    let r1 := scanPods (fullRef host img) img nsName pods
    let r2 := scanEntries host nsName pods rest
    (r1.1 :: r2.1, r1.2 ++ r2.2)

/-- `setImagesClusterUsage` for one cluster (main.go lines 158-214): the
namespace loop, threading the shared catalog through each namespace. -/
def setImagesClusterUsage (host : String) (namespaces : List KNamespace)
    (images : List Image) : List Image × List UsageReport :=
  match namespaces with
  | [] => (images, [])
  | ns :: rest =>
    let r1 := scanEntries host ns.name ns.pods images
    let r2 := setImagesClusterUsage host rest r1.1
    (r2.1, r1.2 ++ r2.2)

/-- The per-cluster fan-out of main.go lines 120-127, one goroutine per
kubeconfig. The goroutines only or-in per-entry booleans under a lock, so
the final catalog equals the sequential fold over clusters. -/
def correlateClusters (host : String) (clusters : List (List KNamespace))
    (images : List Image) : List Image :=
  match clusters with
  | [] => images
  | c :: rest => correlateClusters host rest (setImagesClusterUsage host c images).1

/-- Or the bit `b` into an entry's `usedInCluster` flag. -/
def setUsed (b : Bool) (img : Image) : Image :=
  { img with usedInCluster := img.usedInCluster || b }

/-- A bearer-authenticated registry manifest call issued by the delete
stage (main.go `setImageDigest` / `deleteImages`), carrying the tag or
digest interpolated into `manifestURL`. -/
inductive RegistryCall where
  | getManifest : String → RegistryCall
  | deleteManifest : String → RegistryCall
deriving DecidableEq, Repr

/-- `getImages` (main.go lines 280-301): one catalog entry per tag of the
fetched tag list, with only `Name` and `Tag` set — all other fields keep
their Go zero values, so `UsedInCluster` is false. -/
def getImages (repository : String) (tags : List String) : List Image :=
  tags.map (fun t => { name := repository, tag := t })

/-- `setImageUploadDate` (main.go lines 242-278): for each entry, fetch
the manifest for its tag and store the parsed `created` timestamp of the
newest history layer; the HTTP fetch and JSON parsing are external,
modelled by the oracle `createdOf`. -/
def setImageUploadDate (createdOf : String → Int) (images : List Image) : List Image :=
  images.map (fun im => { im with created := createdOf im.tag })

/-- `setImageDigest` (main.go lines 225-240): for each entry, GET the
manifest for its tag (the emitted call) and store the response's
`Docker-Content-Digest` header, modelled by the oracle `digestOf`. -/
def setImageDigest (digestOf : String → String) (images : List Image) :
    List Image × List RegistryCall :=
  (images.map (fun im => { im with digest := digestOf im.tag }),
   images.map (fun im => RegistryCall.getManifest im.tag))

/-- `deleteImages` (main.go lines 216-223): one DELETE call per entry of
the given slice, keyed by its digest; the loop does not consult
`UsedInCluster`. -/
def deleteImages (images : List Image) : List RegistryCall :=
  images.map (fun im => RegistryCall.deleteManifest im.digest)

/-- The listing loop of main.go lines 130-134: only entries with
`!image.UsedInCluster` are printed as `Image will be deleted`. -/
def willBeDeletedList (images : List Image) : List Image :=
  images.filter (fun im => !im.usedInCluster)

/-- The delete stage of `main` (main.go lines 137-154): when the delete
flag is set, read the confirmation line from standard input; unless it is
exactly `"yes\n"`, return immediately; otherwise run `setImageDigest` and
then `deleteImages` over the whole surviving slice. Returns the registry
calls issued, in order. -/
def runDeleteStage (deleteFlag : Bool) (confirmation : String)
    (digestOf : String → String) (images : List Image) : List RegistryCall :=
  if deleteFlag then
    if confirmation ≠ "yes\n" then []
    else
      (setImageDigest digestOf images).2 ++ deleteImages (setImageDigest digestOf images).1
  else []

/-- The observable outcome of the status validation in `sendHTTPRequest`
(main.go lines 366-374). -/
inductive ResponseOutcome where
  /-- Status 200 or 202: the call returns silently. -/
  | ok : ResponseOutcome
  /-- Status 404: the return code is printed, the call still returns and
  the run continues with no data. -/
  | okLoggedNotFound : ResponseOutcome
  /-- Any other status: return code and body are printed and the run
  panics (aborts). -/
  | fatal : ResponseOutcome
deriving DecidableEq, Repr

/-- The validation of main.go lines 366-374: statuses 200 and 202 pass;
otherwise 404 is logged and tolerated and everything else panics after
printing status code and body. -/
def validateResponse (status : Nat) : ResponseOutcome :=
  if status ≠ 200 ∧ status ≠ 202 then
    if status = 404 then ResponseOutcome.okLoggedNotFound
    else ResponseOutcome.fatal
  else ResponseOutcome.ok

end Pruner

namespace Pruner

theorem ageFilter_eq (cutoff : Int) (images : List Image) :
    ageFilter cutoff images =
      (images.filter (fun im => decide (im.created < cutoff)),
       (images.filter (fun im => !decide (im.created < cutoff))).map mkAgeReport) := by
  induction images with
  | nil => rfl
  | cons img rest ih =>
    simp only [ageFilter, ih]
    by_cases h : img.created < cutoff <;>
      simp [h, List.filter_cons, mkAgeReport]

theorem patternFilterLoop_eq (compileOk : String → Bool)
    (rmatch : String → String → Bool) (pattern : String) (images : List Image) :
    patternFilterLoop compileOk rmatch pattern images =
      (images.filter (fun im => !(matchString compileOk rmatch pattern im.tag).1),
       (images.filter (fun im => (matchString compileOk rmatch pattern im.tag).1)).map
         (fun im => PatternReport.mk im.name im.tag pattern)) := by
  induction images with
  | nil => rfl
  | cons img rest ih =>
    simp only [patternFilterLoop, ih]
    by_cases h : (matchString compileOk rmatch pattern img.tag).1 <;>
      simp [h, List.filter_cons]

@[simp] theorem setUsed_false (img : Image) : setUsed false img = img := by
  cases img; simp [setUsed]

@[simp] theorem setUsed_setUsed (a b : Bool) (img : Image) :
    setUsed b (setUsed a img) = setUsed (a || b) img := by
  cases img; simp [setUsed, Bool.or_assoc]

@[simp] theorem setUsed_name (b : Bool) (img : Image) : (setUsed b img).name = img.name := rfl

@[simp] theorem setUsed_tag (b : Bool) (img : Image) : (setUsed b img).tag = img.tag := rfl

@[simp] theorem setUsed_usedInCluster (b : Bool) (img : Image) :
    (setUsed b img).usedInCluster = (img.usedInCluster || b) := rfl

@[simp] theorem fullRef_setUsed (host : String) (b : Bool) (img : Image) :
    fullRef host (setUsed b img) = fullRef host img := rfl

theorem scanContainers_fst (n nsName podName : String) (cs : List Container) :
    ∀ img : Image, (scanContainers n img nsName podName cs).1 =
      setUsed (cs.any (containerMatches n)) img := by
  induction cs with
  | nil => intro img; simp [scanContainers]
  | cons c rest ih =>
    intro img
    by_cases h : n = c.image
    · subst h
      have h2 : ({ img with usedInCluster := true } : Image) = setUsed true img := by
        cases img; simp [setUsed]
      simp [scanContainers, h2, ih, containerMatches]
    · have h3 : (n == c.image) = false := by simpa using h
      simp [scanContainers, h, ih, containerMatches, h3]

theorem scanContainers_snd (n nsName podName : String) (cs : List Container) :
    ∀ img : Image, (scanContainers n img nsName podName cs).2 =
      (cs.filter (containerMatches n)).map
        (fun _ => UsageReport.mk img.name img.tag nsName podName) := by
  induction cs with
  | nil => intro img; simp [scanContainers]
  | cons c rest ih =>
    intro img
    by_cases h : n = c.image
    · subst h
      simp [scanContainers, ih, containerMatches, List.filter_cons]
    · simp [scanContainers, h, ih, containerMatches, List.filter_cons]

theorem setUsed_congr (a b : Bool) (img : Image)
    (h : (img.usedInCluster || a) = (img.usedInCluster || b)) :
    setUsed a img = setUsed b img := by
  cases img
  simpa [setUsed] using h

theorem scanPods_fst (n nsName : String) (pods : List Pod) :
    ∀ img : Image, (scanPods n img nsName pods).1 =
      setUsed (pods.any (podMatches n)) img := by
  induction pods with
  | nil => intro img; simp [scanPods]
  | cons p rest ih =>
    intro img
    have hsc : (scanContainers n img nsName p.name p.containers).1 =
        setUsed (podMatches n p) img := by
      rw [scanContainers_fst]
      rfl
    by_cases h : (img.usedInCluster || podMatches n p) = true
    · have hbranch : (scanPods n img nsName (p :: rest)).1 =
          setUsed (podMatches n p) img := by
        simp [scanPods, hsc, h]
      rw [hbranch]
      apply setUsed_congr
      cases hu : img.usedInCluster <;> cases hpm : podMatches n p <;> simp_all
    · have ha : img.usedInCluster = false := by
        cases hu : img.usedInCluster
        · rfl
        · exact absurd (by rw [hu]; simp) h
      have hb : podMatches n p = false := by
        cases hp2 : podMatches n p
        · rfl
        · exact absurd (by rw [hp2]; simp) h
      have hbranch : (scanPods n img nsName (p :: rest)).1 =
          (scanPods n img nsName rest).1 := by
        simp [scanPods, hsc, ha, hb]
      rw [hbranch, ih]
      simp [hb]

theorem scanEntries_map (host nsName : String) (pods : List Pod) :
    ∀ images : List Image, (scanEntries host nsName pods images).1 =
      images.map (fun im => (scanPods (fullRef host im) im nsName pods).1) := by
  intro images
  induction images with
  | nil => simp [scanEntries]
  | cons img rest ih => simp [scanEntries, ih]

theorem scanEntries_fst (host nsName : String) (pods : List Pod)
    (images : List Image) :
    (scanEntries host nsName pods images).1 =
      images.map (fun img => setUsed (pods.any (podMatches (fullRef host img))) img) := by
  rw [scanEntries_map]
  apply List.map_congr_left
  intro img _
  rw [scanPods_fst]

theorem setImagesClusterUsage_fst (host : String) (nss : List KNamespace) :
    ∀ images : List Image, (setImagesClusterUsage host nss images).1 =
      images.map (fun img => setUsed (nss.any (nsMatches (fullRef host img))) img) := by
  induction nss with
  | nil =>
    intro images
    simp [setImagesClusterUsage]
  | cons ns rest ih =>
    intro images
    simp only [setImagesClusterUsage]
    rw [scanEntries_fst, ih, List.map_map]
    have hfun : ((fun img => setUsed (rest.any (nsMatches (fullRef host img))) img) ∘
        (fun img => setUsed (ns.pods.any (podMatches (fullRef host img))) img)) =
        (fun img => setUsed ((ns :: rest).any (nsMatches (fullRef host img))) img) := by
      funext img
      simp [Function.comp, nsMatches, List.any_cons, Bool.or_assoc]
    rw [hfun]

theorem correlateClusters_eq (host : String) (clusters : List (List KNamespace)) :
    ∀ images : List Image, correlateClusters host clusters images =
      images.map (fun img =>
        setUsed (clusters.any (fun nss => nss.any (nsMatches (fullRef host img)))) img) := by
  induction clusters with
  | nil =>
    intro images
    simp [correlateClusters]
  | cons c rest ih =>
    intro images
    simp only [correlateClusters]
    rw [setImagesClusterUsage_fst, ih, List.map_map]
    have hfun : ((fun img =>
        setUsed (rest.any (fun nss => nss.any (nsMatches (fullRef host img)))) img) ∘
        (fun img => setUsed (c.any (nsMatches (fullRef host img))) img)) =
        (fun img =>
          setUsed ((c :: rest).any (fun nss => nss.any (nsMatches (fullRef host img)))) img) := by
      funext img
      simp [Function.comp, List.any_cons, Bool.or_assoc]
    rw [hfun]

end Pruner

/-- C5: the age filter retains an entry iff its `createdAt` is strictly
older than the cutoff `now − minExpiry days`; every strictly younger
entry is dropped and individually reported. -/
theorem ageFilter_strictly_older_retained (now minExpiry : Int)
    (images : List Pruner.Image) (img : Pruner.Image) (hmem : img ∈ images) :
    (img.created < Pruner.minExpiryDate now minExpiry →
      img ∈ (Pruner.ageFilter (Pruner.minExpiryDate now minExpiry) images).1) ∧
    (Pruner.minExpiryDate now minExpiry < img.created →
      img ∉ (Pruner.ageFilter (Pruner.minExpiryDate now minExpiry) images).1 ∧
      Pruner.mkAgeReport img ∈ (Pruner.ageFilter (Pruner.minExpiryDate now minExpiry) images).2) := by
  rw [Pruner.ageFilter_eq]
  refine ⟨fun hold => ?_, fun hyoung => ⟨fun hmem2 => ?_, ?_⟩⟩
  · exact List.mem_filter.mpr ⟨hmem, by simpa using hold⟩
  · have := (List.mem_filter.mp hmem2).2
    simp at this
    exact absurd hyoung (by omega)
  · exact List.mem_map_of_mem _ (List.mem_filter.mpr ⟨hmem, by simp; omega⟩)

/-- Witness for C5: with cutoff 0, an entry created at −1 is retained and
an entry created at 1 is dropped and reported. -/
theorem ageFilter_strictly_older_retained_witness :
    ({ name := "repo", tag := "old", created := -1 : Pruner.Image }.created <
        Pruner.minExpiryDate 0 0 →
      { name := "repo", tag := "old", created := -1 : Pruner.Image } ∈
        (Pruner.ageFilter (Pruner.minExpiryDate 0 0)
          [{ name := "repo", tag := "old", created := -1 }]).1) ∧
    (Pruner.minExpiryDate 0 0 <
        { name := "repo", tag := "old", created := -1 : Pruner.Image }.created →
      { name := "repo", tag := "old", created := -1 : Pruner.Image } ∉
        (Pruner.ageFilter (Pruner.minExpiryDate 0 0)
          [{ name := "repo", tag := "old", created := -1 }]).1 ∧
      Pruner.mkAgeReport { name := "repo", tag := "old", created := -1 } ∈
        (Pruner.ageFilter (Pruner.minExpiryDate 0 0)
          [{ name := "repo", tag := "old", created := -1 }]).2) :=
  ageFilter_strictly_older_retained 0 0 _ _ (by simp)

/-- C2 counterexample: an entry whose `createdAt` equals the threshold
instant exactly (minExpiry = 7 days before now = 0) is dropped by the age
filter, not retained: `Created.Before(minExpiryDate)` is false at
equality. -/
theorem ageFilter_boundary_dropped :
    Pruner.ageFilter (Pruner.minExpiryDate 0 7)
        [{ name := "repo", tag := "v1", created := Pruner.minExpiryDate 0 7 }] =
      ([], [Pruner.AgeReport.mk "repo" "v1" (Pruner.minExpiryDate 0 7)]) := by
  simp [Pruner.ageFilter, Pruner.minExpiryDate]

/-- C2 amended: an entry whose `createdAt` is exactly the threshold
instant is always dropped by the age filter (the comparison is strict
`Before`, so only strictly older entries are retained). -/
theorem ageFilter_boundary_never_retained (cutoff : Int)
    (images : List Pruner.Image) (img : Pruner.Image)
    (hb : img.created = cutoff) :
    img ∉ (Pruner.ageFilter cutoff images).1 := by
  rw [Pruner.ageFilter_eq]
  intro hmem
  have := (List.mem_filter.mp hmem).2
  simp [hb] at this

/-- Witness for the amended C2: the boundary entry is not in the filter's
output on a concrete catalog. -/
theorem ageFilter_boundary_never_retained_witness :
    ({ name := "repo", tag := "v1", created := (5 : Int) : Pruner.Image }.created = 5) ∧
    { name := "repo", tag := "v1", created := (5 : Int) : Pruner.Image } ∉
      (Pruner.ageFilter 5
        [{ name := "repo", tag := "v1", created := (5 : Int) }]).1 :=
  ⟨rfl, ageFilter_boundary_never_retained 5 _ _ rfl⟩

/-- C6: with a supplied pattern that compiles, the pattern filter drops
every entry whose tag matches the pattern and retains every entry whose
tag does not match; with no pattern supplied the stage drops nothing. -/
theorem patternFilter_must_not_match (compileOk : String → Bool)
    (rmatch : String → String → Bool) (pattern : String)
    (images : List Pruner.Image) (img : Pruner.Image)
    (hp : pattern ≠ "") (hc : compileOk pattern = true) (hmem : img ∈ images) :
    (rmatch pattern img.tag = true →
      img ∉ (Pruner.patternFilter compileOk rmatch pattern images).1) ∧
    (rmatch pattern img.tag = false →
      img ∈ (Pruner.patternFilter compileOk rmatch pattern images).1) ∧
    Pruner.patternFilter compileOk rmatch "" images = (images, []) := by
  unfold Pruner.patternFilter
  rw [if_neg hp, if_pos rfl, Pruner.patternFilterLoop_eq]
  refine ⟨fun hm hmem2 => ?_, fun hm => ?_, rfl⟩
  · have := (List.mem_filter.mp hmem2).2
    simp [Pruner.matchString, hc, hm] at this
  · exact List.mem_filter.mpr ⟨hmem, by simp [Pruner.matchString, hc, hm]⟩

/-- Witness for C6: the matcher drops the matching tag `bad` and retains
the non-matching tag `good`. -/
theorem patternFilter_must_not_match_witness :
    ((fun (_ : String) (s : String) => s == "bad") "p"
        ({ name := "repo", tag := "good" : Pruner.Image }).tag = true →
      { name := "repo", tag := "good" : Pruner.Image } ∉
        (Pruner.patternFilter (fun _ => true) (fun _ s => s == "bad") "p"
          [{ name := "repo", tag := "bad" }, { name := "repo", tag := "good" }]).1) ∧
    ((fun (_ : String) (s : String) => s == "bad") "p"
        ({ name := "repo", tag := "good" : Pruner.Image }).tag = false →
      { name := "repo", tag := "good" : Pruner.Image } ∈
        (Pruner.patternFilter (fun _ => true) (fun _ s => s == "bad") "p"
          [{ name := "repo", tag := "bad" }, { name := "repo", tag := "good" }]).1) ∧
    Pruner.patternFilter (fun _ => true) (fun _ s => s == "bad") ""
        [{ name := "repo", tag := "bad" }, { name := "repo", tag := "good" }] =
      ([{ name := "repo", tag := "bad" }, { name := "repo", tag := "good" }], []) :=
  patternFilter_must_not_match (fun _ => true) (fun _ s => s == "bad") "p"
    [{ name := "repo", tag := "bad" }, { name := "repo", tag := "good" }]
    { name := "repo", tag := "good" } (by decide) rfl (by simp)

/-- C10: when the supplied pattern fails to compile, `MatchString`'s error
is discarded and its `false` result retains every entry: the stage returns
the catalog unchanged and emits no report, surfacing no failure. -/
theorem patternFilter_invalid_pattern_noop (compileOk : String → Bool)
    (rmatch : String → String → Bool) (pattern : String)
    (images : List Pruner.Image)
    (hp : pattern ≠ "") (hc : compileOk pattern = false) :
    Pruner.patternFilter compileOk rmatch pattern images = (images, []) := by
  unfold Pruner.patternFilter
  rw [if_neg hp, Pruner.patternFilterLoop_eq]
  have hpred : ∀ im : Pruner.Image,
      (Pruner.matchString compileOk rmatch pattern im.tag).1 = false := by
    intro im
    simp [Pruner.matchString, hc]
  have h1 : images.filter (fun im => !(Pruner.matchString compileOk rmatch pattern im.tag).1) = images := by
    apply List.filter_eq_self.mpr
    intro im _
    simp [hpred im]
  have h2 : images.filter (fun im => (Pruner.matchString compileOk rmatch pattern im.tag).1) = [] := by
    apply List.filter_eq_nil_iff.mpr
    intro im _
    simp [hpred im]
  rw [h1, h2]
  rfl

/-- Witness for C10: an invalid pattern `(` leaves a concrete two-entry
catalog untouched with no reports. -/
theorem patternFilter_invalid_pattern_noop_witness :
    Pruner.patternFilter (fun _ => false) (fun _ _ => true) "("
        [{ name := "repo", tag := "v1" }, { name := "repo", tag := "v2" }] =
      ([{ name := "repo", tag := "v1" }, { name := "repo", tag := "v2" }], []) :=
  patternFilter_invalid_pattern_noop (fun _ => false) (fun _ _ => true) "("
    [{ name := "repo", tag := "v1" }, { name := "repo", tag := "v2" }]
    (by decide) rfl

/-- C7: usage correlation marks an entry used iff some container's image
string of some pod of some namespace of some scanned cluster is exactly
equal (string equality) to the entry's fully-qualified reference
`registryHost/name:tag`; no other matching occurs. -/
theorem correlateClusters_marks_iff_exact_match (host : String)
    (clusters : List (List Pruner.KNamespace)) (images : List Pruner.Image)
    (i : Nat) (hi : i < images.length)
    (hi2 : i < (Pruner.correlateClusters host clusters images).length)
    (h0 : images[i].usedInCluster = false) :
    ((Pruner.correlateClusters host clusters images)[i]).usedInCluster = true ↔
      ∃ nss ∈ clusters, ∃ ns ∈ nss, ∃ p ∈ ns.pods, ∃ c ∈ p.containers,
        Pruner.fullRef host images[i] = c.image := by
  have h1 : (Pruner.correlateClusters host clusters images)[i] =
      Pruner.setUsed
        (clusters.any (fun nss => nss.any (Pruner.nsMatches (Pruner.fullRef host images[i]))))
        images[i] := by
    simp only [Pruner.correlateClusters_eq, List.getElem_map]
  rw [h1, Pruner.setUsed_usedInCluster, h0]
  simp only [Bool.false_or, List.any_eq_true, Pruner.nsMatches, Pruner.podMatches,
    Pruner.containerMatches, beq_iff_eq]

/-- Witness for C7: the entry `group/app:v1` on registry host
`registry.example.com` is matched only by the byte-for-byte identical
container string; a cluster running `registry.example.com/group/app:v1.0`
satisfies the right side of the iff for no container, so the entry is not
marked. -/
theorem correlateClusters_marks_iff_exact_match_witness :
    ((Pruner.correlateClusters "registry.example.com"
        [[{ name := "default",
            pods := [{ name := "pod1",
                       containers := [{ image := "registry.example.com/group/app:v1.0" }] }] }]]
        [{ name := "group/app", tag := "v1" }])[0]).usedInCluster = true ↔
      ∃ nss ∈ ([[{ name := "default",
                   pods := [{ name := "pod1",
                              containers := [{ image := "registry.example.com/group/app:v1.0" }] }] }]] :
                List (List Pruner.KNamespace)),
        ∃ ns ∈ nss, ∃ p ∈ ns.pods, ∃ c ∈ p.containers,
          Pruner.fullRef "registry.example.com"
            ([{ name := "group/app", tag := "v1" : Pruner.Image }][0]) = c.image :=
  correlateClusters_marks_iff_exact_match "registry.example.com"
    [[{ name := "default",
        pods := [{ name := "pod1",
                   containers := [{ image := "registry.example.com/group/app:v1.0" }] }] }]]
    [{ name := "group/app", tag := "v1" }] 0 (by decide) (by decide) rfl

/-- C3 counterexample: one namespace `n1` with two pods that both
reference the entry `repo:v1` exactly. The claim says the later pod
`pod2` is still scanned and reported after the entry is marked used at
`pod1`; the code's `break` skips it, so the run reports only `pod1`. -/
theorem correlator_later_pod_not_reported :
    Pruner.fullRef "reg" { name := "repo", tag := "v1" } = "reg/repo:v1" ∧
    ({ name := "pod2", containers := [{ image := "reg/repo:v1" }] } : Pruner.Pod) ∈
      [({ name := "pod1", containers := [{ image := "reg/repo:v1" }] } : Pruner.Pod),
       { name := "pod2", containers := [{ image := "reg/repo:v1" }] }] ∧
    (Pruner.setImagesClusterUsage "reg"
        [{ name := "n1",
           pods := [{ name := "pod1", containers := [{ image := "reg/repo:v1" }] },
                    { name := "pod2", containers := [{ image := "reg/repo:v1" }] }] }]
        [{ name := "repo", tag := "v1" }]).2 =
      [{ name := "repo", tag := "v1", nsName := "n1", podName := "pod1" }] := by
  refine ⟨rfl, by simp, ?_⟩
  rfl

/-- C3 amended: once an entry is marked used, the remaining containers of
the current pod are still scanned for that entry (every matching
container of the pod is reported, whatever the entry's flag); after that
pod, the scan of the remaining pods of the current namespace is skipped
for that entry; and every catalog entry is still processed independently
of the others. -/
theorem correlator_early_exit_per_entry (n nsName host : String)
    (img : Pruner.Image) (p : Pruner.Pod) (rest pods : List Pruner.Pod)
    (images : List Pruner.Image) :
    ((Pruner.scanContainers n img nsName p.name p.containers).2.length =
      (p.containers.filter (Pruner.containerMatches n)).length) ∧
    ((Pruner.scanContainers n img nsName p.name p.containers).1.usedInCluster = true →
      Pruner.scanPods n img nsName (p :: rest) = Pruner.scanPods n img nsName [p]) ∧
    ((Pruner.scanEntries host nsName pods images).1 =
      images.map (fun im => (Pruner.scanPods (Pruner.fullRef host im) im nsName pods).1)) := by
  refine ⟨?_, ?_, Pruner.scanEntries_map host nsName pods images⟩
  · rw [Pruner.scanContainers_snd]
    simp
  · intro h
    simp [Pruner.scanPods, h]

/-- Witness for the amended C3: a pod with two matching containers yields
two reports; after it the second pod is skipped. -/
theorem correlator_early_exit_per_entry_witness :
    ((Pruner.scanContainers "reg/repo:v1" { name := "repo", tag := "v1" } "n1"
        ({ name := "pod1",
           containers := [{ image := "reg/repo:v1" }, { image := "reg/repo:v1" }] } : Pruner.Pod).name
        ({ name := "pod1",
           containers := [{ image := "reg/repo:v1" }, { image := "reg/repo:v1" }] } : Pruner.Pod).containers).2.length =
      (({ name := "pod1",
          containers := [{ image := "reg/repo:v1" }, { image := "reg/repo:v1" }] } : Pruner.Pod).containers.filter
        (Pruner.containerMatches "reg/repo:v1")).length) ∧
    ((Pruner.scanContainers "reg/repo:v1" { name := "repo", tag := "v1" } "n1"
        ({ name := "pod1",
           containers := [{ image := "reg/repo:v1" }, { image := "reg/repo:v1" }] } : Pruner.Pod).name
        ({ name := "pod1",
           containers := [{ image := "reg/repo:v1" }, { image := "reg/repo:v1" }] } : Pruner.Pod).containers).1.usedInCluster = true →
      Pruner.scanPods "reg/repo:v1" { name := "repo", tag := "v1" } "n1"
          [{ name := "pod1",
             containers := [{ image := "reg/repo:v1" }, { image := "reg/repo:v1" }] },
           { name := "pod2", containers := [{ image := "reg/repo:v1" }] }] =
        Pruner.scanPods "reg/repo:v1" { name := "repo", tag := "v1" } "n1"
          [{ name := "pod1",
             containers := [{ image := "reg/repo:v1" }, { image := "reg/repo:v1" }] }]) ∧
    ((Pruner.scanEntries "reg" "n1"
        [{ name := "pod2", containers := [{ image := "reg/repo:v1" }] }]
        [{ name := "repo", tag := "v1" }]).1 =
      [{ name := "repo", tag := "v1" : Pruner.Image }].map
        (fun im => (Pruner.scanPods (Pruner.fullRef "reg" im) im "n1"
          [{ name := "pod2", containers := [{ image := "reg/repo:v1" }] }]).1)) :=
  correlator_early_exit_per_entry "reg/repo:v1" "n1" "reg"
    { name := "repo", tag := "v1" }
    { name := "pod1", containers := [{ image := "reg/repo:v1" }, { image := "reg/repo:v1" }] }
    [{ name := "pod2", containers := [{ image := "reg/repo:v1" }] }]
    [{ name := "pod2", containers := [{ image := "reg/repo:v1" }] }]
    [{ name := "repo", tag := "v1" }]

/-- C9: for a bearer-authenticated registry call, every HTTP status other
than 200 and 202 is fatal — the run aborts after printing status code and
body — except 404, which is only logged and treated as no data. -/
theorem validateResponse_fatal_except_404 (status : Nat)
    (h200 : status ≠ 200) (h202 : status ≠ 202) (h404 : status ≠ 404) :
    Pruner.validateResponse status = Pruner.ResponseOutcome.fatal ∧
    Pruner.validateResponse 404 = Pruner.ResponseOutcome.okLoggedNotFound ∧
    Pruner.validateResponse 200 = Pruner.ResponseOutcome.ok ∧
    Pruner.validateResponse 202 = Pruner.ResponseOutcome.ok := by
  refine ⟨?_, by decide, by decide, by decide⟩
  unfold Pruner.validateResponse
  rw [if_pos ⟨h200, h202⟩, if_neg h404]

/-- Witness for C9: status 500 is fatal, 404/200/202 are not. -/
theorem validateResponse_fatal_except_404_witness :
    Pruner.validateResponse 500 = Pruner.ResponseOutcome.fatal ∧
    Pruner.validateResponse 404 = Pruner.ResponseOutcome.okLoggedNotFound ∧
    Pruner.validateResponse 200 = Pruner.ResponseOutcome.ok ∧
    Pruner.validateResponse 202 = Pruner.ResponseOutcome.ok :=
  validateResponse_fatal_except_404 500 (by decide) (by decide) (by decide)

/-- C4: with the delete flag set, any standard-input response other than
exactly "yes\n" makes the delete stage issue zero registry calls: no
digest resolution and no DELETE request. -/
theorem confirmation_gate_blocks (confirmation : String)
    (digestOf : String → String) (images : List Pruner.Image)
    (h : confirmation ≠ "yes\n") :
    Pruner.runDeleteStage true confirmation digestOf images = [] := by
  unfold Pruner.runDeleteStage
  rw [if_pos rfl, if_pos h]

/-- Witness for C4: operator input "no\n" issues no calls. -/
theorem confirmation_gate_blocks_witness :
    Pruner.runDeleteStage true "no\n" (fun _ => "sha256:d1")
      [{ name := "repo", tag := "v1" }] = [] :=
  confirmation_gate_blocks "no\n" (fun _ => "sha256:d1")
    [{ name := "repo", tag := "v1" }] (by decide)

/-- C1 (code defect): after confirmation "yes\n", the delete stage runs
over the whole surviving slice without filtering on `usedInCluster`. An
entry with `usedInCluster = true` — which the listing loop just above did
not even print as "will be deleted" — still gets its digest resolved and
a DELETE issued for it. -/
theorem deleteStage_deletes_used_entry :
    ({ name := "repo", tag := "v2", usedInCluster := true : Pruner.Image }).usedInCluster
        = true ∧
    Pruner.willBeDeletedList [{ name := "repo", tag := "v2", usedInCluster := true }] = [] ∧
    Pruner.runDeleteStage true "yes\n" (fun _ => "sha256:d2")
        [{ name := "repo", tag := "v2", usedInCluster := true }] =
      [Pruner.RegistryCall.getManifest "v2",
       Pruner.RegistryCall.deleteManifest "sha256:d2"] := by
  refine ⟨rfl, rfl, ?_⟩
  rfl

/-- C8: `usedInCluster` starts false (`getImages` sets only name and tag)
and is monotone within a run: the two filters only move entries,
unchanged; the upload-date and digest stages rewrite other fields only;
and correlation only ors matches into the flag, never clearing a true. -/
theorem usedInCluster_starts_false_and_monotone
    (repository : String) (tags : List String) (createdOf : String → Int)
    (digestOf : String → String) (cutoff : Int) (compileOk : String → Bool)
    (rmatch : String → String → Bool) (pattern host : String)
    (clusters : List (List Pruner.KNamespace)) (images : List Pruner.Image)
    (img : Pruner.Image) (i : Nat) (hi : i < images.length)
    (hi2 : i < (Pruner.correlateClusters host clusters images).length) :
    (∀ im ∈ Pruner.getImages repository tags, im.usedInCluster = false) ∧
    (img ∈ (Pruner.ageFilter cutoff images).1 → img ∈ images) ∧
    (img ∈ (Pruner.patternFilter compileOk rmatch pattern images).1 → img ∈ images) ∧
    ((Pruner.setImageUploadDate createdOf images).map (fun im => im.usedInCluster) =
      images.map (fun im => im.usedInCluster)) ∧
    (((Pruner.setImageDigest digestOf images).1).map (fun im => im.usedInCluster) =
      images.map (fun im => im.usedInCluster)) ∧
    (images[i].usedInCluster = true →
      ((Pruner.correlateClusters host clusters images)[i]).usedInCluster = true) := by
  refine ⟨?_, ?_, ?_, ?_, ?_, ?_⟩
  · intro im hmem
    simp only [Pruner.getImages, List.mem_map] at hmem
    obtain ⟨t, _, rfl⟩ := hmem
    rfl
  · intro hmem
    rw [Pruner.ageFilter_eq] at hmem
    exact (List.mem_filter.mp hmem).1
  · intro hmem
    unfold Pruner.patternFilter at hmem
    by_cases hp : pattern = ""
    · rw [if_pos hp] at hmem
      exact hmem
    · rw [if_neg hp, Pruner.patternFilterLoop_eq] at hmem
      exact (List.mem_filter.mp hmem).1
  · simp [Pruner.setImageUploadDate, List.map_map]
  · simp [Pruner.setImageDigest, List.map_map]
  · intro hu
    have h1 : (Pruner.correlateClusters host clusters images)[i] =
        Pruner.setUsed
          (clusters.any (fun nss => nss.any (Pruner.nsMatches (Pruner.fullRef host images[i]))))
          images[i] := by
      simp only [Pruner.correlateClusters_eq, List.getElem_map]
    rw [h1, Pruner.setUsed_usedInCluster, hu]
    rfl

/-- Witness for C8 on a concrete one-entry catalog with an empty cluster
list. -/
theorem usedInCluster_starts_false_and_monotone_witness :
    (∀ im ∈ Pruner.getImages "repo" ["v1"], im.usedInCluster = false) ∧
    ({ name := "repo", tag := "v1" : Pruner.Image } ∈
        (Pruner.ageFilter 0 [{ name := "repo", tag := "v1", usedInCluster := true }]).1 →
      { name := "repo", tag := "v1" : Pruner.Image } ∈
        [{ name := "repo", tag := "v1", usedInCluster := true : Pruner.Image }]) ∧
    ({ name := "repo", tag := "v1" : Pruner.Image } ∈
        (Pruner.patternFilter (fun _ => true) (fun _ _ => false) "p"
          [{ name := "repo", tag := "v1", usedInCluster := true }]).1 →
      { name := "repo", tag := "v1" : Pruner.Image } ∈
        [{ name := "repo", tag := "v1", usedInCluster := true : Pruner.Image }]) ∧
    ((Pruner.setImageUploadDate (fun _ => 0)
        [{ name := "repo", tag := "v1", usedInCluster := true }]).map
          (fun im => im.usedInCluster) =
      [{ name := "repo", tag := "v1", usedInCluster := true : Pruner.Image }].map
        (fun im => im.usedInCluster)) ∧
    (((Pruner.setImageDigest (fun _ => "d")
        [{ name := "repo", tag := "v1", usedInCluster := true }]).1).map
          (fun im => im.usedInCluster) =
      [{ name := "repo", tag := "v1", usedInCluster := true : Pruner.Image }].map
        (fun im => im.usedInCluster)) ∧
    (([{ name := "repo", tag := "v1", usedInCluster := true : Pruner.Image }][0]).usedInCluster
          = true →
      ((Pruner.correlateClusters "reg" []
          [{ name := "repo", tag := "v1", usedInCluster := true }])[0]).usedInCluster = true) :=
  usedInCluster_starts_false_and_monotone "repo" ["v1"] (fun _ => 0) (fun _ => "d") 0
    (fun _ => true) (fun _ _ => false) "p" "reg" []
    [{ name := "repo", tag := "v1", usedInCluster := true }]
    { name := "repo", tag := "v1" } 0 (by decide) (by decide)
